import Mathlib

/-!
Shallow embedding of the football-betting strategy-analysis engine.

Modelling conventions:
* Match dates are normalized calendar dates; we embed them as `Nat` ordinals
  (the source standardizes dates to `YYYY-MM-DD` strings whose order coincides
  with calendar order before comparing them).
* Missing CSV cells (`NaN` / `NaT` in pandas) are embedded as `Option` fields;
  a pandas comparison against `NaN` is false, which the embedding reproduces by
  matching on `Option`.
* Python floats are embedded as `Rat`; `round(x, 2)` is embedded as exact
  half-to-even rounding at two decimals over `Rat`.
* File loading, CSV parsing and the season-level error shells (missing file,
  missing odds columns, empty season) are outside the embedded per-match logic;
  every function below receives the already-loaded list of rows of one season.
-/

/-- Full-time result code of a match: home win, draw, away win. -/
inductive FTR where
  | H : FTR
  | D : FTR
  | A : FTR
deriving DecidableEq, Repr

/-- Outcome of one match from one team's perspective: win, draw, loss. -/
inductive Outcome where
  | W : Outcome
  | D : Outcome
  | L : Outcome
deriving DecidableEq, Repr

/-- One row of a season CSV file, as the strategies read it.  Fields that no
strategy in scope reads (half-time data, referee, further bookmakers) are
omitted; the odds columns are the three columns `get_odds_columns` selects. -/
structure Row where
  homeTeam : Option String
  awayTeam : Option String
  date : Option Nat
  fthg : Option Nat
  ftag : Option Nat
  ftr : Option FTR
  homeOdds : Option Rat
  drawOdds : Option Rat
  awayOdds : Option Rat
deriving DecidableEq, Repr

/-- One bet record, as appended to `bet_details` by the strategies.  The
diagnostic-only fields of the source dictionaries (momentum/form scores,
recent-results strings) do not affect any metric and are omitted. -/
structure Bet where
  match_date : Option Nat
  home_team : String
  away_team : String
  bet_team : String
  bet_type : String
  result : FTR
  bet_wins : Bool
  odds : Rat
  stake : Rat
  winnings : Rat
deriving DecidableEq, Repr

/-- Builds one bet record: every strategy stakes 1 unit and records
`winnings = stake * odds` on a winning bet and `0` otherwise. -/
def mkBet (match_date : Option Nat) (home_team away_team bet_team bet_type : String)
    (result : FTR) (bet_wins : Bool) (odds : Rat) : Bet :=
  ⟨match_date, home_team, away_team, bet_team, bet_type, result, bet_wins, odds, 1,
    if bet_wins then 1 * odds else 0⟩

/-- Date key used when ordering a team's matches (rows reaching the sort always
carry a date, because the date filter discards dateless rows). -/
def dateVal (r : Row) : Nat := r.date.getD 0

/-- Inserts a row into a list already sorted by descending date. -/
def insertByDateDesc (r : Row) : List Row → List Row
  | [] => [r]
  | x :: xs => if dateVal x ≤ dateVal r then r :: x :: xs else x :: insertByDateDesc r xs

/-- Sorts rows by descending date (`sort_values('Date', ascending=False)`);
stable, which matters only for same-day rows that real season data never has. -/
def sortByDateDesc : List Row → List Row
  | [] => []
  | x :: xs => insertByDateDesc x (sortByDateDesc xs)

/-- `(df['HomeTeam'] == team) | (df['AwayTeam'] == team)`. -/
def involvesTeam (team : String) (r : Row) : Bool :=
  r.homeTeam == some team || r.awayTeam == some team

/-- `df['Date'] < match_date_dt`; false on a missing date, as in pandas. -/
def beforeDate (cutoff : Nat) (r : Row) : Bool :=
  match r.date with
  | some d => d < cutoff
  | none => false

/-- The rows of `df` involving `team` strictly before `cutoff` — the
`team_matches` filter shared by `calculate_team_form` and
`calculate_team_momentum`. -/
def team_matches (df : List Row) (team : String) (cutoff : Nat) : List Row :=
  df.filter (fun r => involvesTeam team r && beforeDate cutoff r)

/-- Classifies one match from `team`'s perspective, exactly as the source
loops do: against the home side `H` is a win and `D` a draw, anything else
(including a missing result code) counts as a loss; symmetrically away. -/
def teamOutcome (team : String) (r : Row) : Outcome :=
  if r.homeTeam == some team then
    match r.ftr with
    | some FTR.H => Outcome.W
    | some FTR.D => Outcome.D
    | _ => Outcome.L
  else
    match r.ftr with
    | some FTR.A => Outcome.W
    | some FTR.D => Outcome.D
    | _ => Outcome.L

/-- The reverse-chronological recent-outcome list both signal calculators
build internally: the team's qualifying prior matches, newest first, capped at
the window, each classified from the team's perspective. -/
def recentOutcomes (df : List Row) (team : String) (match_date : Nat)
    (window : Nat) : List Outcome :=
  ((sortByDateDesc (team_matches df team match_date)).take window).map (teamOutcome team)

/-- Floor of a rational, computed on its normalized numerator and
denominator so that kernel evaluation works. -/
def ratFloor (x : Rat) : Int := x.num.fdiv (x.den : Int)

/-- Python `round` to the nearest integer, ties to even, idealized over `Rat`. -/
def pyRound (x : Rat) : Int :=
  let n : Int := ratFloor x
  let frac : Rat := x - n
  if frac < 1/2 then n
  else if 1/2 < frac then n + 1
  else if n % 2 = 0 then n else n + 1

/-- Python `round(x, 2)`. -/
def round2 (x : Rat) : Rat := (pyRound (x * 100) : Rat) / 100

/-- Aggregate performance metrics over a list of bet records. -/
structure Metrics where
  total_bets : Nat
  winning_bets : Nat
  win_rate : Rat
  total_stake : Rat
  total_winnings : Rat
  profit_loss : Rat
  roi : Rat
deriving DecidableEq, Repr

/-- The FOR/AGAINST pair returned by `calculate_separate_metrics`. -/
structure SeparateMetrics where
  for_bets : Metrics
  against_bets : Metrics
deriving DecidableEq, Repr

namespace PerformanceMetrics

/-- `PerformanceMetrics.calculate_metrics`. -/
def calculate_metrics (bet_details : List Bet) : Metrics :=
  if bet_details.isEmpty then
    ⟨0, 0, 0, 0, 0, 0, 0⟩
  else
    let total_bets := bet_details.length
    let winning_bets := (bet_details.filter (fun b => b.bet_wins)).length
    let total_stake := (bet_details.map (fun b => b.stake)).sum
    let total_winnings := (bet_details.map (fun b => b.winnings)).sum
    let win_rate : Rat := if 0 < total_bets then (winning_bets : Rat) / (total_bets : Rat) * 100 else 0
    let profit_loss := total_winnings - total_stake
    let roi : Rat := if 0 < total_stake then profit_loss / total_stake * 100 else 0
    ⟨total_bets, winning_bets, round2 win_rate, total_stake, total_winnings,
      round2 profit_loss, round2 roi⟩

/-- `PerformanceMetrics.calculate_separate_metrics`: metrics of the records
tagged exactly `FOR` and of those tagged exactly `AGAINST`. -/
def calculate_separate_metrics (bet_details : List Bet) : SeparateMetrics :=
  let for_bets := bet_details.filter (fun b => b.bet_type == "FOR")
  let against_bets := bet_details.filter (fun b => b.bet_type == "AGAINST")
  ⟨calculate_metrics for_bets, calculate_metrics against_bets⟩

end PerformanceMetrics

/-- Accumulated statistics of one team while building a league table. -/
structure TeamStats where
  points : Nat
  wins : Nat
  draws : Nat
  losses : Nat
  goals_for : Nat
  goals_against : Nat
  matches_played : Nat
deriving DecidableEq, Repr

def TeamStats.init : TeamStats := ⟨0, 0, 0, 0, 0, 0, 0⟩

/-- Goal difference of an accumulated team record. -/
def TeamStats.gd (s : TeamStats) : Int := (s.goals_for : Int) - (s.goals_against : Int)

/-- One row of the ranked league table. -/
structure LRow where
  team : String
  points : Nat
  matches_played : Nat
  wins : Nat
  draws : Nat
  losses : Nat
  goals_for : Nat
  goals_against : Nat
  goal_difference : Int
  rank : Nat
deriving DecidableEq, Repr

namespace PremierLeagueAnalytics

/-- Inserting a team into the accumulator on first sight, preserving first-seen
order as a Python dict does. -/
def ensure_team (name : String) (stats : List (String × TeamStats)) :
    List (String × TeamStats) :=
  if stats.any (fun p => p.1 == name) then stats else stats ++ [(name, TeamStats.init)]

/-- Point update of one team's accumulated record. -/
def update_team (name : String) (f : TeamStats → TeamStats)
    (stats : List (String × TeamStats)) : List (String × TeamStats) :=
  stats.map (fun p => if p.1 == name then (p.1, f p.2) else p)

/-- One iteration of the `get_league_table` match loop: rows missing a team
name, a goal count or the result code are skipped; otherwise goals and
matches-played accrue to both sides and points by result code. -/
def apply_match (stats : List (String × TeamStats)) (m : Row) :
    List (String × TeamStats) :=
  match m.homeTeam, m.awayTeam, m.fthg, m.ftag, m.ftr with
  | some home_team, some away_team, some home_goals, some away_goals, some result =>
    let stats := ensure_team home_team stats
    let stats := ensure_team away_team stats
    let stats := update_team home_team (fun s =>
      { s with goals_for := s.goals_for + home_goals,
               goals_against := s.goals_against + away_goals,
               matches_played := s.matches_played + 1 }) stats
    let stats := update_team away_team (fun s =>
      { s with goals_for := s.goals_for + away_goals,
               goals_against := s.goals_against + home_goals,
               matches_played := s.matches_played + 1 }) stats
    match result with
    | FTR.H =>
      update_team away_team (fun s => { s with losses := s.losses + 1 })
        (update_team home_team (fun s => { s with points := s.points + 3, wins := s.wins + 1 }) stats)
    | FTR.A =>
      update_team home_team (fun s => { s with losses := s.losses + 1 })
        (update_team away_team (fun s => { s with points := s.points + 3, wins := s.wins + 1 }) stats)
    | FTR.D =>
      update_team away_team (fun s => { s with points := s.points + 1, draws := s.draws + 1 })
        (update_team home_team (fun s => { s with points := s.points + 1, draws := s.draws + 1 }) stats)
  | _, _, _, _, _ => stats

/-- Sort key of `sort_values(['points', 'goal_difference'], ascending=[False, False])`:
`a` goes before `b` when `a` has more points, or equal points and at least the
same goal difference (the multi-key pandas sort is stable, so ties keep
first-seen order). -/
def table_key_ge (a b : String × TeamStats) : Bool :=
  b.2.points < a.2.points || (a.2.points == b.2.points && b.2.gd ≤ a.2.gd)

def insert_ranked (a : String × TeamStats) :
    List (String × TeamStats) → List (String × TeamStats)
  | [] => [a]
  | b :: rest => if table_key_ge a b then a :: b :: rest else b :: insert_ranked a rest

def sort_table : List (String × TeamStats) → List (String × TeamStats)
  | [] => []
  | a :: rest => insert_ranked a (sort_table rest)

/-- `PremierLeagueAnalytics.get_league_table`: accumulate, sort by
(points desc, goal difference desc), assign 1-based ranks. -/
def get_league_table (df : List Row) : List LRow :=
  let stats := df.foldl apply_match []
  let sorted := sort_table stats
  sorted.enum.map (fun p =>
    ⟨p.2.1, p.2.2.points, p.2.2.matches_played, p.2.2.wins, p.2.2.draws, p.2.2.losses,
      p.2.2.goals_for, p.2.2.goals_against, p.2.2.gd, p.1 + 1⟩)

/-- `PremierLeagueAnalytics.get_top_teams`: first `n` teams of the table. -/
def get_top_teams (df : List Row) (n : Nat) : List String :=
  ((get_league_table df).take n).map (fun r => r.team)

/-- `tail(k)` of a list, pandas-style: its last `min k len` elements. -/
def listTail (k : Nat) (l : List LRow) : List LRow := l.drop (l.length - k)

/-- `PremierLeagueAnalytics.get_bottom_teams`:
`league_table.tail(n + 3).head(n)` — the bottom `n` teams after excluding the
last three (relegated) positions. -/
def get_bottom_teams (df : List Row) (n : Nat) : List String :=
  ((listTail (n + 3) (get_league_table df)).take n).map (fun r => r.team)

end PremierLeagueAnalytics

/-- Form statistics returned by `calculate_team_form` (the non-error shape). -/
structure FormResult where
  games_played : Nat
  wins : Nat
  draws : Nat
  losses : Nat
  points : Nat
  form_score : Rat
  form_games : Nat
deriving DecidableEq, Repr

/-- The fixed threshold table returned by `get_form_thresholds`. -/
structure FormThresholds where
  excellent_form : Rat
  good_form : Rat
  poor_form : Rat
  terrible_form : Rat
deriving DecidableEq, Repr

namespace FormStrategy

/-- `FormStrategy.get_form_thresholds` (its `form_games` argument is unused in
the source as well). -/
def get_form_thresholds : FormThresholds := ⟨8/10, 6/10, 3/10, 2/10⟩

/-- `FormStrategy.calculate_team_form` over an already-loaded season.  The
source's error branches (invalid date string, I/O failure) cannot arise once
dates are parsed values, so the result is always the non-error shape. -/
def calculate_team_form (df : List Row) (team : String) (match_date : Nat)
    (form_games : Nat) : FormResult :=
  let tm := team_matches df team match_date
  if tm.isEmpty then
    ⟨0, 0, 0, 0, 0, 0, form_games⟩
  else
    let recent := (sortByDateDesc tm).take form_games
    let results := recent.map (teamOutcome team)
    let wins := results.count Outcome.W
    let draws := results.count Outcome.D
    let losses := results.count Outcome.L
    let points := wins * 3 + draws
    let form_score : Rat :=
      if 0 < form_games then (points : Rat) / ((form_games : Rat) * 3) else 0
    ⟨recent.length, wins, draws, losses, points, form_score, form_games⟩

/-- Body of the per-match loop of `FormStrategy.analyze_betting_performance`:
the (possibly empty) list of bet records one row of the target season
contributes.  `df` is the same season list the loop iterates (the calculators
reload it in the source). -/
def process_match (df : List Row) (form_games : Nat) (form_threshold : Rat)
    (bet_against_poor_form : Bool) (m : Row) : List Bet :=
  match m.homeTeam, m.awayTeam, m.ftr, m.date with
  | some home_team, some away_team, some result, some match_date =>
    match m.homeOdds, m.awayOdds with
    | some home_odds, some away_odds =>
      let home_form := calculate_team_form df home_team match_date form_games
      let away_form := calculate_team_form df away_team match_date form_games
      if home_form.games_played < form_games ∨ away_form.games_played < form_games then []
      else
        let home_form_score := home_form.form_score
        let away_form_score := away_form.form_score
        let home_for : List Bet :=
          if form_threshold ≤ home_form_score ∧ 0 < home_odds then
            [mkBet (some match_date) home_team away_team home_team "FORM_GOOD" result
              (result == FTR.H) home_odds]
          else []
        let away_for : List Bet :=
          if form_threshold ≤ away_form_score ∧ 0 < away_odds then
            [mkBet (some match_date) home_team away_team away_team "FORM_GOOD" result
              (result == FTR.A) away_odds]
          else []
        let against : List Bet :=
          if bet_against_poor_form then
            let poor_form_threshold := get_form_thresholds.poor_form
            (match m.drawOdds with
             | some draw_odds =>
               (if home_form_score ≤ poor_form_threshold ∧ 0 < away_odds ∧ 0 < draw_odds then
                  [mkBet (some match_date) home_team away_team home_team "FORM_POOR_AGAINST"
                    result (result == FTR.A || result == FTR.D) (max away_odds draw_odds)]
                else []) ++
               (if away_form_score ≤ poor_form_threshold ∧ 0 < home_odds ∧ 0 < draw_odds then
                  [mkBet (some match_date) home_team away_team away_team "FORM_POOR_AGAINST"
                    result (result == FTR.H || result == FTR.D) (max home_odds draw_odds)]
                else [])
             | none => [])
          else []
        home_for ++ away_for ++ against
    | _, _ => []
  | _, _, _, _ => []

/-- `FormStrategy.analyze_betting_performance` reduced to the bet records it
collects (the surrounding season-level error shells carry no records). -/
def analyze_betting_performance (df : List Row) (form_games : Nat)
    (form_threshold : Rat) (bet_against_poor_form : Bool) : List Bet :=
  df.flatMap (process_match df form_games form_threshold bet_against_poor_form)

end FormStrategy

/-- Streak classification of `calculate_team_momentum`. -/
inductive StreakType where
  | winning : StreakType
  | losing : StreakType
  | draw : StreakType
  | none : StreakType
deriving DecidableEq, Repr

/-- Momentum statistics returned by `calculate_team_momentum` (non-error shape). -/
structure MomentumResult where
  games_played : Nat
  current_streak : Nat
  streak_type : StreakType
  momentum_score : Rat
  lookback_games : Nat
  recent_results : List Outcome
deriving DecidableEq, Repr

namespace MomentumStrategy

/-- The streak loop of the source: counts consecutive entries equal to
`first` from the head of `results`, stopping at the first mismatch. -/
def streak_count (first : Outcome) : List Outcome → Nat
  | [] => 0
  | x :: xs => if x = first then streak_count first xs + 1 else 0

/-- `MomentumStrategy.calculate_team_momentum` over an already-loaded season. -/
def calculate_team_momentum (df : List Row) (team : String) (match_date : Nat)
    (lookback_games : Nat) : MomentumResult :=
  let tm := team_matches df team match_date
  if tm.isEmpty then ⟨0, 0, StreakType.none, 0, lookback_games, []⟩
  else
    let recent := (sortByDateDesc tm).take lookback_games
    if recent.isEmpty then ⟨0, 0, StreakType.none, 0, lookback_games, []⟩
    else
      let results := recent.map (teamOutcome team)
      match results with
      | [] => ⟨recent.length, 0, StreakType.none, 0, lookback_games, []⟩
      | first :: _ =>
        let streak_type :=
          match first with
          | Outcome.W => StreakType.winning
          | Outcome.L => StreakType.losing
          | Outcome.D => StreakType.draw
        let current_streak := streak_count first results
        let momentum_score : Rat :=
          match streak_type with
          | StreakType.winning => (current_streak : Rat) / (lookback_games : Rat)
          | StreakType.losing => -(current_streak : Rat) / (lookback_games : Rat)
          | _ => 0
        ⟨recent.length, current_streak, streak_type, momentum_score, lookback_games,
          results.take 5⟩

/-- Parameters of `MomentumStrategy.analyze_betting_performance`. -/
structure MomentumCfg where
  lookback_games : Nat
  winning_momentum_threshold : Rat
  losing_momentum_threshold : Rat
  bet_against_losing_momentum : Bool
deriving DecidableEq, Repr

/-- Body of the per-match loop of
`MomentumStrategy.analyze_betting_performance`: the bet records one row of
the target season contributes. -/
def process_match (df : List Row) (cfg : MomentumCfg) (m : Row) : List Bet :=
  match m.homeTeam, m.awayTeam, m.ftr, m.date with
  | some home_team, some away_team, some result, some match_date =>
    match m.homeOdds, m.awayOdds with
    | some home_odds, some away_odds =>
      let hm := calculate_team_momentum df home_team match_date cfg.lookback_games
      let am := calculate_team_momentum df away_team match_date cfg.lookback_games
      if hm.games_played < 2 ∨ am.games_played < 2 then []
      else
        let home_momentum_score := hm.momentum_score
        let away_momentum_score := am.momentum_score
        let for_bets : List Bet :=
          if cfg.winning_momentum_threshold ≤ home_momentum_score ∧
             cfg.winning_momentum_threshold ≤ away_momentum_score then
            if |home_momentum_score - away_momentum_score| < 1/100 then
              match m.drawOdds with
              | some draw_odds =>
                if 0 < draw_odds then
                  [mkBet (some match_date) home_team away_team "DRAW" "MOMENTUM_DRAW"
                    result (result == FTR.D) draw_odds]
                else []
              | none => []
            else if away_momentum_score < home_momentum_score then
              if 0 < home_odds then
                [mkBet (some match_date) home_team away_team home_team "MOMENTUM_WINNING"
                  result (result == FTR.H) home_odds]
              else []
            else
              if 0 < away_odds then
                [mkBet (some match_date) home_team away_team away_team "MOMENTUM_WINNING"
                  result (result == FTR.A) away_odds]
              else []
          else if cfg.winning_momentum_threshold ≤ home_momentum_score then
            if 0 < home_odds then
              [mkBet (some match_date) home_team away_team home_team "MOMENTUM_WINNING"
                result (result == FTR.H) home_odds]
            else []
          else if cfg.winning_momentum_threshold ≤ away_momentum_score then
            if 0 < away_odds then
              [mkBet (some match_date) home_team away_team away_team "MOMENTUM_WINNING"
                result (result == FTR.A) away_odds]
            else []
          else []
        let against_bets : List Bet :=
          if cfg.bet_against_losing_momentum then
            match m.drawOdds with
            | some draw_odds =>
              (if home_momentum_score ≤ cfg.losing_momentum_threshold ∧
                  0 < away_odds ∧ 0 < draw_odds then
                 [mkBet (some match_date) home_team away_team home_team
                   "MOMENTUM_LOSING_AGAINST" result (result == FTR.A || result == FTR.D)
                   (max away_odds draw_odds)]
               else []) ++
              (if away_momentum_score ≤ cfg.losing_momentum_threshold ∧
                  0 < home_odds ∧ 0 < draw_odds then
                 [mkBet (some match_date) home_team away_team away_team
                   "MOMENTUM_LOSING_AGAINST" result (result == FTR.H || result == FTR.D)
                   (max home_odds draw_odds)]
               else [])
            | none => []
          else []
        for_bets ++ against_bets
    | _, _ => []
  | _, _, _, _ => []

/-- `MomentumStrategy.analyze_betting_performance` reduced to the bet records
it collects. -/
def analyze_betting_performance (df : List Row) (cfg : MomentumCfg) : List Bet :=
  df.flatMap (process_match df cfg)

end MomentumStrategy

namespace TopBottomStrategy

/-- Body of the per-match loop of
`TopBottomStrategy.analyze_betting_performance`, given the already-selected
`top_teams` and `bottom_teams` lists (the previous season's rank order).  The
loop skips rows missing a team name, the result code, or the home/away odds;
the branch precedence is exactly the source's if/elif chain. -/
def process_match (top_teams bottom_teams : List String) (m : Row) : List Bet :=
  match m.homeTeam, m.awayTeam, m.ftr with
  | some home_team, some away_team, some result =>
    match m.homeOdds, m.awayOdds with
    | some home_odds, some away_odds =>
      let top_teams_playing := [home_team, away_team].filter (fun t => top_teams.contains t)
      let bottom_teams_playing := [home_team, away_team].filter (fun t => bottom_teams.contains t)
      if (top_teams.contains home_team && bottom_teams.contains away_team) ||
         (top_teams.contains away_team && bottom_teams.contains home_team) then
        top_teams_playing.flatMap (fun team =>
          let odds := if team == home_team then home_odds else away_odds
          if odds ≤ 0 then []
          else
            [mkBet m.date home_team away_team team "FOR" result
              ((team == home_team && result == FTR.H) ||
               (team == away_team && result == FTR.A)) odds])
      else if top_teams.contains home_team && top_teams.contains away_team then
        let home_rank := top_teams.indexOf home_team + 1
        let away_rank := top_teams.indexOf away_team + 1
        let higher_ranked_team := if home_rank < away_rank then home_team else away_team
        let odds := if higher_ranked_team == home_team then home_odds else away_odds
        if odds ≤ 0 then []
        else
          [mkBet m.date home_team away_team higher_ranked_team "FOR" result
            ((higher_ranked_team == home_team && result == FTR.H) ||
             (higher_ranked_team == away_team && result == FTR.A)) odds]
      else if bottom_teams.contains home_team && bottom_teams.contains away_team then
        let home_rank := bottom_teams.indexOf home_team + 1
        let away_rank := bottom_teams.indexOf away_team + 1
        let higher_ranked_team := if home_rank < away_rank then home_team else away_team
        let opponent_odds := if higher_ranked_team == home_team then away_odds else home_odds
        match m.drawOdds with
        | some draw_odds =>
          if opponent_odds ≤ 0 ∨ draw_odds ≤ 0 then []
          else
            [mkBet m.date home_team away_team higher_ranked_team "AGAINST" result
              ((higher_ranked_team == home_team && (result == FTR.A || result == FTR.D)) ||
               (higher_ranked_team == away_team && (result == FTR.H || result == FTR.D)))
              (max opponent_odds draw_odds)]
        | none => []
      else
        (top_teams_playing.flatMap (fun team =>
          let odds := if team == home_team then home_odds else away_odds
          if odds ≤ 0 then []
          else
            [mkBet m.date home_team away_team team "FOR" result
              ((team == home_team && result == FTR.H) ||
               (team == away_team && result == FTR.A)) odds])) ++
        (bottom_teams_playing.flatMap (fun team =>
          match m.drawOdds with
          | some draw_odds =>
            let opponent_odds := if team == home_team then away_odds else home_odds
            if opponent_odds ≤ 0 ∨ draw_odds ≤ 0 then []
            else
              [mkBet m.date home_team away_team team "AGAINST" result
                ((team == home_team && (result == FTR.A || result == FTR.D)) ||
                 (team == away_team && (result == FTR.H || result == FTR.D)))
                (max opponent_odds draw_odds)]
          | none => []))
    | _, _ => []
  | _, _, _ => []

/-- `TopBottomStrategy.analyze_betting_performance` reduced to the bet records
it collects: the top-N and bottom-N team lists come from the previous season's
table, then the target season's rows are processed one by one. -/
def analyze_betting_performance (prev_df target_df : List Row) (top_n : Nat)
    (include_against_bottom : Bool) : List Bet :=
  let top_teams := PremierLeagueAnalytics.get_top_teams prev_df top_n
  let bottom_teams :=
    if include_against_bottom then PremierLeagueAnalytics.get_bottom_teams prev_df top_n
    else []
  target_df.flatMap (process_match top_teams bottom_teams)

end TopBottomStrategy

/-- Shape of the dictionaries returned by the waterfall advisor's
`_check_*_opportunity` helpers.  The numeric interpolations of the source's
reason strings are elided; the constant parts are kept. -/
structure CheckRec where
  bet_team : Option String
  confidence : Rat
  reason : String
  detailed_reason : String
deriving DecidableEq, Repr

/-- The recommendation dictionary `_apply_waterfall_logic` returns. -/
structure Recommendation where
  bet_team : Option String
  bet_type : Option String
  confidence : Rat
  reason : String
  strategy_used : Option String
  priority : Option Nat
  detailed_reason : String
deriving DecidableEq, Repr

namespace WaterfallBettingAdvisor

/-- `_check_form_against_opportunity`: bet against a side whose form over the
last `form_games` games is at or below `poor_form_threshold`, home side first. -/
def check_form_against (df : List Row) (home_team away_team : String)
    (match_date : Nat) (form_games : Nat) (poor_form_threshold : Rat) : CheckRec :=
  let home_form := FormStrategy.calculate_team_form df home_team match_date form_games
  let away_form := FormStrategy.calculate_team_form df away_team match_date form_games
  if home_form.games_played < form_games ∨ away_form.games_played < form_games then
    ⟨none, 0, "Insufficient games", ""⟩
  else if home_form.form_score ≤ poor_form_threshold then
    ⟨some home_team, min ((poor_form_threshold - home_form.form_score) * 2) 1,
      "Home team poor form", "Home team form at or below the poor form threshold"⟩
  else if away_form.form_score ≤ poor_form_threshold then
    ⟨some away_team, min ((poor_form_threshold - away_form.form_score) * 2) 1,
      "Away team poor form", "Away team form at or below the poor form threshold"⟩
  else ⟨none, 0, "No poor form teams found", ""⟩

/-- `_check_momentum_against_opportunity`: hardcoded 10-game lookback,
10-game minimum, threshold `-0.2`; home side first. -/
def check_momentum_against (df : List Row) (home_team away_team : String)
    (match_date : Nat) : CheckRec :=
  let hm := MomentumStrategy.calculate_team_momentum df home_team match_date 10
  let am := MomentumStrategy.calculate_team_momentum df away_team match_date 10
  if hm.games_played < 10 ∨ am.games_played < 10 then
    ⟨none, 0, "Insufficient games", ""⟩
  else if hm.momentum_score ≤ -(2/10) then
    ⟨some home_team, min (|(-(2/10) : Rat) - hm.momentum_score| * 2) 1,
      "Home team negative momentum", "Home team momentum at or below the negative threshold"⟩
  else if am.momentum_score ≤ -(2/10) then
    ⟨some away_team, min (|(-(2/10) : Rat) - am.momentum_score| * 2) 1,
      "Away team negative momentum", "Away team momentum at or below the negative threshold"⟩
  else ⟨none, 0, "No negative momentum teams found", ""⟩

/-- `_check_momentum_for_opportunity`: hardcoded 10-game lookback, 10-game
minimum, threshold `0.2`; home side first. -/
def check_momentum_for (df : List Row) (home_team away_team : String)
    (match_date : Nat) : CheckRec :=
  let hm := MomentumStrategy.calculate_team_momentum df home_team match_date 10
  let am := MomentumStrategy.calculate_team_momentum df away_team match_date 10
  if hm.games_played < 10 ∨ am.games_played < 10 then
    ⟨none, 0, "Insufficient games", ""⟩
  else if (2/10 : Rat) ≤ hm.momentum_score then
    ⟨some home_team, min ((hm.momentum_score - 2/10) * 2) 1,
      "Home team positive momentum", "Home team momentum at or above the positive threshold"⟩
  else if (2/10 : Rat) ≤ am.momentum_score then
    ⟨some away_team, min ((am.momentum_score - 2/10) * 2) 1,
      "Away team positive momentum", "Away team momentum at or above the positive threshold"⟩
  else ⟨none, 0, "No positive momentum teams found", ""⟩

/-- `_check_form_for_opportunity`: back a side whose form over the last
`form_games` games is at or above `form_threshold`, home side first. -/
def check_form_for (df : List Row) (home_team away_team : String)
    (match_date : Nat) (form_games : Nat) (form_threshold : Rat) : CheckRec :=
  let home_form := FormStrategy.calculate_team_form df home_team match_date form_games
  let away_form := FormStrategy.calculate_team_form df away_team match_date form_games
  if home_form.games_played < form_games ∨ away_form.games_played < form_games then
    ⟨none, 0, "Insufficient games", ""⟩
  else if form_threshold ≤ home_form.form_score then
    ⟨some home_team, min ((home_form.form_score - form_threshold) * 2) 1,
      "Home team good form", "Home team form at or above the good form threshold"⟩
  else if form_threshold ≤ away_form.form_score then
    ⟨some away_team, min ((away_form.form_score - form_threshold) * 2) 1,
      "Away team good form", "Away team form at or above the good form threshold"⟩
  else ⟨none, 0, "No good form teams found", ""⟩

/-- The position-lookup loop of `_check_top_bottom_opportunity`: one pass over
the standings, remembering the home rank on a home-name hit, else the away
rank on an away-name hit. -/
def find_positions (standings : List LRow) (home_team away_team : String) :
    Option Nat × Option Nat :=
  standings.foldl (fun pa row =>
    if row.team == home_team then (some row.rank, pa.2)
    else if row.team == away_team then (pa.1, some row.rank)
    else pa) ((none : Option Nat), (none : Option Nat))

/-- `_check_top_bottom_opportunity`: previous-season standings, a 20-team
league hardcoded in the rank comparison. -/
def check_top_bottom (prev_df : List Row) (home_team away_team : String)
    (top_n : Nat) : CheckRec :=
  let standings := PremierLeagueAnalytics.get_league_table prev_df
  if standings.isEmpty then ⟨none, 0, "No standings data", ""⟩
  else
    match find_positions standings home_team away_team with
    | (some home_position, some away_position) =>
      if (home_position : Int) ≤ top_n ∧ (20 : Int) - top_n + 1 ≤ away_position then
        ⟨some home_team, 8/10, "Top vs Bottom", "Home team top vs away team bottom"⟩
      else if (away_position : Int) ≤ top_n ∧ (20 : Int) - top_n + 1 ≤ home_position then
        ⟨some away_team, 8/10, "Top vs Bottom", "Away team top vs home team bottom"⟩
      else ⟨none, 0, "No top-bottom advantage", ""⟩
    | _ => ⟨none, 0, "Team not found in standings", ""⟩

/-- `_apply_waterfall_logic`: the strict priority cascade.  `df` is the current
season's match list (used by the form/momentum calculators), `prev_df` the
previous season's (used by the top-bottom step). -/
def _apply_waterfall_logic (df prev_df : List Row) (home_team away_team : String)
    (match_date : Nat) (form_games : Nat) (form_threshold poor_form_threshold : Rat)
    (top_n : Nat) : Recommendation :=
  let c1 := check_form_against df home_team away_team match_date form_games poor_form_threshold
  if c1.bet_team.isSome then
    ⟨c1.bet_team, some "FORM_AGAINST", c1.confidence, c1.reason, some "form_against",
      some 1, c1.detailed_reason⟩
  else
    let c2 := check_momentum_against df home_team away_team match_date
    if c2.bet_team.isSome then
      ⟨c2.bet_team, some "MOMENTUM_AGAINST", c2.confidence, c2.reason, some "momentum_against",
        some 2, c2.detailed_reason⟩
    else
      let c3 := check_form_for df home_team away_team match_date form_games form_threshold
      if c3.bet_team.isSome then
        ⟨c3.bet_team, some "FORM_FOR", c3.confidence, c3.reason, some "form_for",
          some 3, c3.detailed_reason⟩
      else
        let c4 := check_momentum_for df home_team away_team match_date
        if c4.bet_team.isSome then
          ⟨c4.bet_team, some "MOMENTUM_FOR", c4.confidence, c4.reason, some "momentum_for",
            some 4, c4.detailed_reason⟩
        else
          let c5 := check_top_bottom prev_df home_team away_team top_n
          if c5.bet_team.isSome then
            ⟨c5.bet_team, some "TOP_BOTTOM", c5.confidence, c5.reason, some "top_bottom",
              some 5, c5.detailed_reason⟩
          else
            ⟨none, none, 0, "No betting opportunities found in any strategy", none, none,
              "Checked: Form AGAINST, Momentum AGAINST, Form FOR, Momentum FOR, Top-Bottom - no opportunities"⟩

end WaterfallBettingAdvisor

/-- Modelled from the spec's words for the refinement claim about streaks: the
run length of identical outcomes at the head of a reverse-chronological
outcome list. -/
def specHeadRunLength : List Outcome → Nat
  | [] => 0
  | x :: xs => 1 + (xs.takeWhile (fun y => y == x)).length

/-- Branch-collapsed restatement of `calculate_team_form` (the source's
empty-filter early return produces exactly the all-zero record this computes
on an empty outcome list); proved equal in `calculate_team_form_eq`. -/
def formModel (df : List Row) (team : String) (match_date : Nat)
    (form_games : Nat) : FormResult :=
  let results := recentOutcomes df team match_date form_games
  let wins := results.count Outcome.W
  let draws := results.count Outcome.D
  let losses := results.count Outcome.L
  let points := wins * 3 + draws
  ⟨results.length, wins, draws, losses, points,
    if 0 < form_games then (points : Rat) / ((form_games : Rat) * 3) else 0, form_games⟩

/-- Branch-collapsed restatement of `calculate_team_momentum` (the source's
three zero-state early returns coincide on an empty outcome list); proved
equal in `calculate_team_momentum_eq`. -/
def momentumModel (df : List Row) (team : String) (match_date : Nat)
    (lookback_games : Nat) : MomentumResult :=
  match recentOutcomes df team match_date lookback_games with
  | [] => ⟨0, 0, StreakType.none, 0, lookback_games, []⟩
  | first :: rest =>
    let results := first :: rest
    let streak_type :=
      match first with
      | Outcome.W => StreakType.winning
      | Outcome.L => StreakType.losing
      | Outcome.D => StreakType.draw
    let current_streak := MomentumStrategy.streak_count first results
    let momentum_score : Rat :=
      match streak_type with
      | StreakType.winning => (current_streak : Rat) / (lookback_games : Rat)
      | StreakType.losing => -(current_streak : Rat) / (lookback_games : Rat)
      | _ => 0
    ⟨results.length, current_streak, streak_type, momentum_score, lookback_games,
      results.take 5⟩

/-! Concrete season data used by counterexamples and witnesses. -/

/-- A fully-populated row (odds 2 / 3 / 4 for home / draw / away). -/
def mkRow (h a : String) (d : Nat) (hg ag : Nat) (r : FTR) : Row :=
  ⟨some h, some a, some d, some hg, some ag, some r, some 2, some 3, some 4⟩

/-- Three prior matches in which team `A` beats team `B`, then their fourth
meeting on date 4: each side enters that match with only 3 qualifying prior
matches. -/
def dfStreak : List Row :=
  [mkRow "A" "B" 1 2 0 FTR.H, mkRow "A" "B" 2 2 0 FTR.H, mkRow "A" "B" 3 2 0 FTR.H,
   mkRow "A" "B" 4 2 0 FTR.H]

/-- The date-4 meeting of `A` and `B` inside `dfStreak`. -/
def rowAB4 : Row := mkRow "A" "B" 4 2 0 FTR.H

/-- The default momentum configuration of the source
(`lookback_games=10`, thresholds `0.2` / `-0.2`, bet-against enabled). -/
def momentumDefaults : MomentumStrategy.MomentumCfg := ⟨10, 2/10, -(2/10), true⟩

/-- A season in which `A` beats `C` ten times and `B` beats `D` ten times:
by date 50, `A` and `B` carry maximal winning momentum and perfect form while
`C` and `D` carry maximal losing momentum and zero form. -/
def dfTwenty : List Row :=
  (List.range 10).map (fun i => mkRow "A" "C" (i + 1) 1 0 FTR.H) ++
  (List.range 10).map (fun i => mkRow "B" "D" (i + 11) 1 0 FTR.H)

/-- An 8-team previous season whose single round yields the strict ranking
T1 > T3 > T5 > T7 > T8 > T6 > T4 > T2 (points, then goal difference). -/
def prevDf8 : List Row :=
  [mkRow "T1" "T2" 1 7 0 FTR.H, mkRow "T3" "T4" 1 6 0 FTR.H,
   mkRow "T5" "T6" 1 5 0 FTR.H, mkRow "T7" "T8" 1 4 0 FTR.H]

/-- A target-season meeting of T1 (rank 1) and T3 (rank 2). -/
def rowT1T3 : Row := mkRow "T1" "T3" 10 1 0 FTR.H

/-- A target-season meeting of T1 (rank 1) and T7 (rank 4). -/
def rowT1T7 : Row := mkRow "T1" "T7" 10 1 0 FTR.H

/-- Prior matches giving `A` a 3-game winning streak (momentum 0.3) and `B` a
2-game winning streak (momentum 0.2) before their date-5 meeting. -/
def dfMomPair : List Row :=
  [mkRow "A" "C" 1 1 0 FTR.H, mkRow "A" "C" 2 1 0 FTR.H, mkRow "A" "C" 3 1 0 FTR.H,
   mkRow "B" "D" 2 1 0 FTR.H, mkRow "B" "D" 3 1 0 FTR.H]

/-- The date-5 meeting of `A` and `B` after `dfMomPair`. -/
def rowAB5 : Row := mkRow "A" "B" 5 1 0 FTR.H

/-- One winning stake-1 bet at the given odds, tagged `bet_type`. -/
def wonBet (ty : String) (o : Rat) : Bet := ⟨some 1, "X", "Y", "X", ty, FTR.H, true, o, 1, o⟩

/-- One losing stake-1 bet at the given odds, tagged `bet_type`. -/
def lostBet (ty : String) (o : Rat) : Bet := ⟨some 1, "X", "Y", "X", ty, FTR.A, false, o, 1, 0⟩

/-- One winning and two losing unit bets: stake 3, winnings 2, so the raw ROI
is the non-terminating −100/3 %. -/
def betsThird : List Bet := [wonBet "FOR" 2, lostBet "FOR" 2, lostBet "AGAINST" 2]

/-! Helper lemmas about the embedded functions. -/

theorem length_insertByDateDesc (r : Row) (l : List Row) :
    (insertByDateDesc r l).length = l.length + 1 := by
  induction l with
  | nil => rfl
  | cons x xs ih =>
    simp only [insertByDateDesc]
    split
    · simp
    · simp [ih]

theorem length_sortByDateDesc (l : List Row) :
    (sortByDateDesc l).length = l.length := by
  induction l with
  | nil => rfl
  | cons x xs ih => simp [sortByDateDesc, length_insertByDateDesc, ih]

theorem sortByDateDesc_cons_ne_nil (x : Row) (xs : List Row) :
    sortByDateDesc (x :: xs) ≠ [] := by
  intro h
  have := length_sortByDateDesc (x :: xs)
  rw [h] at this
  simp at this

theorem calculate_team_form_eq (df : List Row) (team : String) (d n : Nat) :
    FormStrategy.calculate_team_form df team d n = formModel df team d n := by
  unfold FormStrategy.calculate_team_form formModel
  cases htm : team_matches df team d with
  | nil =>
    simp only [htm, List.isEmpty_nil, if_true, recentOutcomes, sortByDateDesc,
      List.take_nil, List.map_nil, List.length_nil, List.count_nil]
    split <;> simp
  | cons x xs =>
    simp [htm, recentOutcomes]

theorem calculate_team_momentum_eq (df : List Row) (team : String) (d lb : Nat) :
    MomentumStrategy.calculate_team_momentum df team d lb = momentumModel df team d lb := by
  unfold MomentumStrategy.calculate_team_momentum momentumModel
  cases htm : team_matches df team d with
  | nil =>
    simp [htm, recentOutcomes, sortByDateDesc]
  | cons x xs =>
    obtain ⟨y, ys, hsort⟩ : ∃ y ys, sortByDateDesc (x :: xs) = y :: ys := by
      cases hs : sortByDateDesc (x :: xs) with
      | nil => exact absurd hs (sortByDateDesc_cons_ne_nil x xs)
      | cons y ys => exact ⟨y, ys, rfl⟩
    cases lb with
    | zero => simp [htm, recentOutcomes, hsort]
    | succ m => simp [htm, recentOutcomes, hsort, List.take_succ_cons]

theorem length_recentOutcomes (df : List Row) (team : String) (d k : Nat) :
    (recentOutcomes df team d k).length = min k (team_matches df team d).length := by
  simp [recentOutcomes, List.length_take, length_sortByDateDesc]

theorem form_games_played (df : List Row) (team : String) (d n : Nat) :
    (FormStrategy.calculate_team_form df team d n).games_played
      = min n (team_matches df team d).length := by
  rw [calculate_team_form_eq]
  simp [formModel, length_recentOutcomes]

theorem momentum_games_played (df : List Row) (team : String) (d n : Nat) :
    (MomentumStrategy.calculate_team_momentum df team d n).games_played
      = min n (team_matches df team d).length := by
  rw [calculate_team_momentum_eq]
  unfold momentumModel
  cases hres : recentOutcomes df team d n with
  | nil =>
    have h0 := length_recentOutcomes df team d n
    rw [hres] at h0
    simp only [List.length_nil] at h0
    simpa using h0
  | cons o os =>
    have h0 := length_recentOutcomes df team d n
    rw [hres] at h0
    simpa using h0

theorem round2_zero : round2 0 = 0 := by with_unfolding_all decide

theorem calculate_metrics_total_bets (l : List Bet) :
    (PerformanceMetrics.calculate_metrics l).total_bets = l.length := by
  cases l <;> simp [PerformanceMetrics.calculate_metrics]

theorem calculate_metrics_winning_bets (l : List Bet) :
    (PerformanceMetrics.calculate_metrics l).winning_bets
      = (l.filter (fun b => b.bet_wins)).length := by
  cases l with
  | nil => simp [PerformanceMetrics.calculate_metrics]
  | cons b t => simp [PerformanceMetrics.calculate_metrics]

theorem calculate_metrics_total_stake (l : List Bet) :
    (PerformanceMetrics.calculate_metrics l).total_stake
      = (l.map (fun b => b.stake)).sum := by
  cases l <;> simp [PerformanceMetrics.calculate_metrics]

theorem calculate_metrics_total_winnings (l : List Bet) :
    (PerformanceMetrics.calculate_metrics l).total_winnings
      = (l.map (fun b => b.winnings)).sum := by
  cases l <;> simp [PerformanceMetrics.calculate_metrics]

theorem partition_filter_length (l : List Bet)
    (h : ∀ b ∈ l, b.bet_type = "FOR" ∨ b.bet_type = "AGAINST") :
    (l.filter (fun b => b.bet_type == "FOR")).length
      + (l.filter (fun b => b.bet_type == "AGAINST")).length = l.length := by
  induction l with
  | nil => simp
  | cons b t ih =>
    have hb := h b (List.mem_cons_self b t)
    have ht : ∀ x ∈ t, x.bet_type = "FOR" ∨ x.bet_type = "AGAINST" :=
      fun x hx => h x (List.mem_cons_of_mem b hx)
    rcases hb with hb | hb <;>
      simp [List.filter_cons, hb, ← ih ht] <;> omega

theorem partition_filter_filter_length (p : Bet → Bool) (l : List Bet)
    (h : ∀ b ∈ l, b.bet_type = "FOR" ∨ b.bet_type = "AGAINST") :
    ((l.filter (fun b => b.bet_type == "FOR")).filter p).length
      + ((l.filter (fun b => b.bet_type == "AGAINST")).filter p).length
      = (l.filter p).length := by
  induction l with
  | nil => simp
  | cons b t ih =>
    have hb := h b (List.mem_cons_self b t)
    have ht : ∀ x ∈ t, x.bet_type = "FOR" ∨ x.bet_type = "AGAINST" :=
      fun x hx => h x (List.mem_cons_of_mem b hx)
    rcases hb with hb | hb <;>
      cases hp : p b <;>
        simp [List.filter_cons, hb, hp, ← ih ht] <;> omega

theorem partition_filter_sum (f : Bet → Rat) (l : List Bet)
    (h : ∀ b ∈ l, b.bet_type = "FOR" ∨ b.bet_type = "AGAINST") :
    ((l.filter (fun b => b.bet_type == "FOR")).map f).sum
      + ((l.filter (fun b => b.bet_type == "AGAINST")).map f).sum
      = (l.map f).sum := by
  induction l with
  | nil => simp
  | cons b t ih =>
    have hb := h b (List.mem_cons_self b t)
    have ht : ∀ x ∈ t, x.bet_type = "FOR" ∨ x.bet_type = "AGAINST" :=
      fun x hx => h x (List.mem_cons_of_mem b hx)
    rcases hb with hb | hb <;>
      simp [List.filter_cons, hb, ← ih ht] <;> ring

/-- C6 (amended): for every list of bet records, `calculate_metrics` returns
`profit_loss` equal to `round(total_winnings - total_stake, 2)` and `roi`
equal to `round(100 * (total_winnings - total_stake) / total_stake, 2)` when
`total_stake` is positive and `0` otherwise; the empty list yields the all-zero
metrics record with no division error.  (The claim's exact equalities without
the 2-decimal rounding fail; see the counterexample.) -/
theorem c6_metrics_formulas_amended (bets : List Bet) :
    (PerformanceMetrics.calculate_metrics bets).profit_loss
      = round2 ((PerformanceMetrics.calculate_metrics bets).total_winnings
          - (PerformanceMetrics.calculate_metrics bets).total_stake) ∧
    (PerformanceMetrics.calculate_metrics bets).roi
      = (if 0 < (PerformanceMetrics.calculate_metrics bets).total_stake then
          round2 (((PerformanceMetrics.calculate_metrics bets).total_winnings
            - (PerformanceMetrics.calculate_metrics bets).total_stake)
            / (PerformanceMetrics.calculate_metrics bets).total_stake * 100)
        else 0) ∧
    (bets = [] → PerformanceMetrics.calculate_metrics bets = ⟨0, 0, 0, 0, 0, 0, 0⟩) := by
  cases bets with
  | nil =>
    refine ⟨?_, ?_, fun _ => rfl⟩ <;>
      simp [PerformanceMetrics.calculate_metrics, round2_zero]
  | cons b t =>
    refine ⟨?_, ?_, by simp⟩
    · simp [PerformanceMetrics.calculate_metrics]
    · simp only [PerformanceMetrics.calculate_metrics, List.isEmpty_cons, Bool.false_eq_true,
        if_false]
      rw [apply_ite round2, round2_zero]

/-- C6 counterexample: with one winning unit bet at odds 2 and two losing unit
bets, the raw ROI is −100/3 %, but `calculate_metrics` stores it rounded to
−33.33, so `roi == 100 * profit_loss / total_stake` fails as stated. -/
theorem c6_claim_counterexample :
    (PerformanceMetrics.calculate_metrics betsThird).roi
      ≠ 100 * (PerformanceMetrics.calculate_metrics betsThird).profit_loss
          / (PerformanceMetrics.calculate_metrics betsThird).total_stake := by
  with_unfolding_all decide

/-- Witness for C6 (amended) at the empty list and at a concrete bet list. -/
theorem c6_metrics_formulas_amended_witness :
    PerformanceMetrics.calculate_metrics [] = ⟨0, 0, 0, 0, 0, 0, 0⟩ ∧
    (PerformanceMetrics.calculate_metrics betsThird).profit_loss
      = round2 ((PerformanceMetrics.calculate_metrics betsThird).total_winnings
          - (PerformanceMetrics.calculate_metrics betsThird).total_stake) :=
  ⟨(c6_metrics_formulas_amended []).2.2 rfl, (c6_metrics_formulas_amended betsThird).1⟩

/-- C2 (amended): for every list of bet records in which each record is tagged
`FOR` or `AGAINST` (as the Top-Bottom strategy tags all of its records), the
FOR-partition and AGAINST-partition metrics of `calculate_separate_metrics`
sum to the overall metrics of `calculate_metrics` on `total_bets`,
`winning_bets`, `total_stake` and `total_winnings`.  (Unrestricted, the claim
fails: a record tagged with any other `bet_type`, such as the Momentum and
Form evaluators produce, lands in neither partition; see the counterexample.) -/
theorem c2_partition_sums_amended (l : List Bet)
    (h : ∀ b ∈ l, b.bet_type = "FOR" ∨ b.bet_type = "AGAINST") :
    (PerformanceMetrics.calculate_separate_metrics l).for_bets.total_bets
        + (PerformanceMetrics.calculate_separate_metrics l).against_bets.total_bets
      = (PerformanceMetrics.calculate_metrics l).total_bets ∧
    (PerformanceMetrics.calculate_separate_metrics l).for_bets.winning_bets
        + (PerformanceMetrics.calculate_separate_metrics l).against_bets.winning_bets
      = (PerformanceMetrics.calculate_metrics l).winning_bets ∧
    (PerformanceMetrics.calculate_separate_metrics l).for_bets.total_stake
        + (PerformanceMetrics.calculate_separate_metrics l).against_bets.total_stake
      = (PerformanceMetrics.calculate_metrics l).total_stake ∧
    (PerformanceMetrics.calculate_separate_metrics l).for_bets.total_winnings
        + (PerformanceMetrics.calculate_separate_metrics l).against_bets.total_winnings
      = (PerformanceMetrics.calculate_metrics l).total_winnings := by
  unfold PerformanceMetrics.calculate_separate_metrics
  refine ⟨?_, ?_, ?_, ?_⟩
  · simp only [calculate_metrics_total_bets]
    exact partition_filter_length l h
  · simp only [calculate_metrics_winning_bets]
    exact partition_filter_filter_length (fun b => b.bet_wins) l h
  · simp only [calculate_metrics_total_stake]
    exact partition_filter_sum (fun b => b.stake) l h
  · simp only [calculate_metrics_total_winnings]
    exact partition_filter_sum (fun b => b.winnings) l h

/-- C2 counterexample: a single record tagged `MOMENTUM_WINNING` (the tag the
Momentum evaluator actually writes) falls into neither the FOR nor the AGAINST
partition, so the partition totals 0 + 0 miss the overall total 1. -/
theorem c2_claim_counterexample :
    (PerformanceMetrics.calculate_separate_metrics [wonBet "MOMENTUM_WINNING" 2]).for_bets.total_bets
        + (PerformanceMetrics.calculate_separate_metrics [wonBet "MOMENTUM_WINNING" 2]).against_bets.total_bets
      ≠ (PerformanceMetrics.calculate_metrics [wonBet "MOMENTUM_WINNING" 2]).total_bets := by
  with_unfolding_all decide

/-- Witness for C2 (amended) at a concrete two-record FOR/AGAINST list. -/
theorem c2_partition_sums_amended_witness :
    (PerformanceMetrics.calculate_separate_metrics [wonBet "FOR" 2, lostBet "AGAINST" 3]).for_bets.total_bets
        + (PerformanceMetrics.calculate_separate_metrics [wonBet "FOR" 2, lostBet "AGAINST" 3]).against_bets.total_bets
      = (PerformanceMetrics.calculate_metrics [wonBet "FOR" 2, lostBet "AGAINST" 3]).total_bets :=
  (c2_partition_sums_amended [wonBet "FOR" 2, lostBet "AGAINST" 3] (by decide)).1

theorem streak_count_le_length (f : Outcome) (l : List Outcome) :
    MomentumStrategy.streak_count f l ≤ l.length := by
  induction l with
  | nil => simp [MomentumStrategy.streak_count]
  | cons x xs ih =>
    simp only [MomentumStrategy.streak_count, List.length_cons]
    split <;> omega

theorem count_points_le_length (l : List Outcome) :
    l.count Outcome.W * 3 + l.count Outcome.D ≤ 3 * l.length := by
  induction l with
  | nil => simp
  | cons x xs ih => cases x <;> simp [List.count_cons] <;> omega

/-- C7: for every season, team, as-of date and window of at least 1, the form
score lies in [0, 1]; when no qualifying prior match exists the form result is
the zero state (`form_score = 0`, `games_played = 0`); and the momentum score
has magnitude at most 1. -/
theorem c7_signal_bounds (df : List Row) (team : String) (d w : Nat) (hw : 1 ≤ w) :
    (0 ≤ (FormStrategy.calculate_team_form df team d w).form_score ∧
      (FormStrategy.calculate_team_form df team d w).form_score ≤ 1) ∧
    (team_matches df team d = [] →
      (FormStrategy.calculate_team_form df team d w).form_score = 0 ∧
      (FormStrategy.calculate_team_form df team d w).games_played = 0) ∧
    |(MomentumStrategy.calculate_team_momentum df team d w).momentum_score| ≤ 1 := by
  have hw0 : (0 : Rat) < (w : Rat) := by exact_mod_cast hw
  refine ⟨?_, ?_, ?_⟩
  · rw [calculate_team_form_eq]
    unfold formModel
    have hwpos : 0 < w := hw
    simp only [hwpos, if_true]
    constructor
    · positivity
    · rw [div_le_one (by positivity)]
      have hpts : (recentOutcomes df team d w).count Outcome.W * 3
          + (recentOutcomes df team d w).count Outcome.D ≤ w * 3 := by
        have h1 := count_points_le_length (recentOutcomes df team d w)
        have h2 := length_recentOutcomes df team d w
        omega
      exact_mod_cast hpts
  · intro h
    rw [calculate_team_form_eq]
    unfold formModel
    simp [recentOutcomes, h, sortByDateDesc]
  · rw [calculate_team_momentum_eq]
    unfold momentumModel
    cases hres : recentOutcomes df team d w with
    | nil => simp
    | cons first rest =>
      have hstreak : MomentumStrategy.streak_count first (first :: rest) ≤ w := by
        have h1 := streak_count_le_length first (first :: rest)
        have h2 := length_recentOutcomes df team d w
        rw [hres] at h2
        simp only [List.length_cons] at h1 h2
        omega
      have hdiv : (MomentumStrategy.streak_count first (first :: rest) : Rat) / (w : Rat) ≤ 1 := by
        rw [div_le_one hw0]
        exact_mod_cast hstreak
      have hnn : (0 : Rat) ≤ (MomentumStrategy.streak_count first (first :: rest) : Rat) / (w : Rat) := by
        positivity
      cases first with
      | W =>
        dsimp only
        simpa [abs_of_nonneg hnn] using hdiv
      | L =>
        dsimp only
        rw [neg_div, abs_neg]
        simpa [abs_of_nonneg hnn] using hdiv
      | D =>
        dsimp only
        simp

/-- Witness for C7 at a concrete season: window 5, a team with history, and a
team with no qualifying prior match. -/
theorem c7_signal_bounds_witness :
    (0 ≤ (FormStrategy.calculate_team_form dfStreak "A" 4 5).form_score ∧
      (FormStrategy.calculate_team_form dfStreak "A" 4 5).form_score ≤ 1) ∧
    ((FormStrategy.calculate_team_form dfStreak "Z" 4 5).form_score = 0 ∧
      (FormStrategy.calculate_team_form dfStreak "Z" 4 5).games_played = 0) ∧
    |(MomentumStrategy.calculate_team_momentum dfStreak "A" 4 5).momentum_score| ≤ 1 :=
  ⟨(c7_signal_bounds dfStreak "A" 4 5 (by norm_num)).1,
   (c7_signal_bounds dfStreak "Z" 4 5 (by norm_num)).2.1 (by decide),
   (c7_signal_bounds dfStreak "A" 4 5 (by norm_num)).2.2⟩

theorem streak_count_eq_takeWhile (f : Outcome) (l : List Outcome) :
    MomentumStrategy.streak_count f l = (l.takeWhile (fun y => y == f)).length := by
  induction l with
  | nil => rfl
  | cons x xs ih =>
    by_cases hx : x = f
    · subst hx
      simp [MomentumStrategy.streak_count, List.takeWhile_cons, ih]
    · simp [MomentumStrategy.streak_count, List.takeWhile_cons, hx]

/-- C8: with at least one qualifying prior match, `current_streak` is the run
length of identical outcomes at the head of the reverse-chronological
recent-outcome list, and `momentum_score` is `current_streak / lookback_games`
for a winning run, its negation for a losing run, and `0` for a draw run. -/
theorem c8_streak_refinement (df : List Row) (team : String) (d lb : Nat)
    (h : team_matches df team d ≠ []) :
    (MomentumStrategy.calculate_team_momentum df team d lb).current_streak
      = specHeadRunLength (recentOutcomes df team d lb) ∧
    (MomentumStrategy.calculate_team_momentum df team d lb).momentum_score
      = (match (recentOutcomes df team d lb).head? with
         | some Outcome.W => (specHeadRunLength (recentOutcomes df team d lb) : Rat) / (lb : Rat)
         | some Outcome.L => -(specHeadRunLength (recentOutcomes df team d lb) : Rat) / (lb : Rat)
         | _ => 0) := by
  rw [calculate_team_momentum_eq]
  unfold momentumModel
  cases hres : recentOutcomes df team d lb with
  | nil => simp [specHeadRunLength]
  | cons first rest =>
    have hstreak : MomentumStrategy.streak_count first (first :: rest)
        = specHeadRunLength (first :: rest) := by
      rw [streak_count_eq_takeWhile]
      simp only [specHeadRunLength, List.takeWhile_cons, beq_self_eq_true, if_true,
        List.length_cons]
      omega
    cases first with
    | W =>
      dsimp only
      exact ⟨hstreak, by simp [hstreak]⟩
    | L =>
      dsimp only
      exact ⟨hstreak, by simp [hstreak]⟩
    | D =>
      dsimp only
      exact ⟨hstreak, by simp⟩

/-- Witness for C8: team `A` enters its date-4 match on a 3-game winning
streak, so with lookback 10 the theorem applies and the score evaluates to
0.3 (and `B`'s mirror-image losing streak to −0.3). -/
theorem c8_streak_refinement_witness :
    (MomentumStrategy.calculate_team_momentum dfStreak "A" 4 10).current_streak
      = specHeadRunLength (recentOutcomes dfStreak "A" 4 10) ∧
    (MomentumStrategy.calculate_team_momentum dfStreak "A" 4 10).momentum_score = 3/10 ∧
    (MomentumStrategy.calculate_team_momentum dfStreak "B" 4 10).momentum_score = -(3/10) :=
  ⟨(c8_streak_refinement dfStreak "A" 4 10 (by decide)).1,
   by with_unfolding_all decide, by with_unfolding_all decide⟩

/-- C9: whenever the league table has at least `n + 3` rows, `get_bottom_teams`
returns exactly `n` teams, and its `i`-th entry is the table's entry at
0-based index `T - n - 3 + i` (1-based ranks `T-n-2` through `T-3`), so the
last three (relegated) positions are always excluded. -/
theorem c9_bottom_teams_slice (df : List Row) (n : Nat)
    (h : n + 3 ≤ (PremierLeagueAnalytics.get_league_table df).length) :
    (PremierLeagueAnalytics.get_bottom_teams df n).length = n ∧
    ∀ i, i < n →
      (PremierLeagueAnalytics.get_bottom_teams df n)[i]?
        = ((PremierLeagueAnalytics.get_league_table df)[(PremierLeagueAnalytics.get_league_table df).length - n - 3 + i]?).map
            LRow.team := by
  unfold PremierLeagueAnalytics.get_bottom_teams PremierLeagueAnalytics.listTail
  constructor
  · simp only [List.length_map, List.length_take, List.length_drop]
    omega
  · intro i hi
    have hidx : (PremierLeagueAnalytics.get_league_table df).length - (n + 3) + i
        = (PremierLeagueAnalytics.get_league_table df).length - n - 3 + i := by omega
    simp only [List.getElem?_map, List.getElem?_take, if_pos hi, List.getElem?_drop, hidx]

/-- Witness for C9 on the concrete 8-team season: the bottom-2 list is the
teams ranked 4 and 5, `T7` and `T8`, skipping the relegated `T6`, `T4`, `T2`. -/
theorem c9_bottom_teams_slice_witness :
    (2 + 3 ≤ (PremierLeagueAnalytics.get_league_table prevDf8).length) ∧
    (PremierLeagueAnalytics.get_bottom_teams prevDf8 2).length = 2 ∧
    PremierLeagueAnalytics.get_bottom_teams prevDf8 2 = ["T7", "T8"] :=
  ⟨by with_unfolding_all decide,
   (c9_bottom_teams_slice prevDf8 2 (by with_unfolding_all decide)).1,
   by with_unfolding_all decide⟩

/-- C1 (amended): the Form evaluator produces no bet record for a match when
either side has fewer qualifying prior matches than `form_games`, exactly as
claimed; the Momentum evaluator, however, skips a match only when either
side's `games_played` is below 2 — not below `lookback_games` — so its
insufficient-history cutoff is 2 prior matches, and a match can produce
momentum bets with fewer prior matches than the lookback window (see the
counterexample). -/
theorem c1_insufficient_history_amended :
    (∀ (df : List Row) (form_games : Nat) (form_threshold : Rat) (bap : Bool)
        (home away : String) (md : Nat) (g1 g2 : Option Nat) (res : FTR)
        (ho dO ao : Option Rat),
      (team_matches df home md).length < form_games ∨
          (team_matches df away md).length < form_games →
        FormStrategy.process_match df form_games form_threshold bap
          ⟨some home, some away, some md, g1, g2, some res, ho, dO, ao⟩ = []) ∧
    (∀ (df : List Row) (cfg : MomentumStrategy.MomentumCfg)
        (home away : String) (md : Nat) (g1 g2 : Option Nat) (res : FTR)
        (ho dO ao : Option Rat),
      (MomentumStrategy.calculate_team_momentum df home md cfg.lookback_games).games_played < 2 ∨
          (MomentumStrategy.calculate_team_momentum df away md cfg.lookback_games).games_played < 2 →
        MomentumStrategy.process_match df cfg
          ⟨some home, some away, some md, g1, g2, some res, ho, dO, ao⟩ = []) := by
  constructor
  · intro df fg thr bap home away md g1 g2 res ho dO ao h
    cases ho <;> cases ao <;> try rfl
    simp only [FormStrategy.process_match]
    rw [if_pos]
    rcases h with h | h
    · refine Or.inl ?_
      rw [form_games_played]
      omega
    · refine Or.inr ?_
      rw [form_games_played]
      omega
  · intro df cfg home away md g1 g2 res ho dO ao h
    cases ho <;> cases ao <;> try rfl
    simp only [MomentumStrategy.process_match]
    rw [if_pos h]

/-- C1 counterexample: on date 4 of `dfStreak`, both sides have only 3
qualifying prior matches — fewer than the default 10-game lookback — yet the
Momentum evaluator still produces bet records for the match (the code's only
guard is `games_played < 2`). -/
theorem c1_claim_counterexample :
    (team_matches dfStreak "A" 4).length < momentumDefaults.lookback_games ∧
    (team_matches dfStreak "B" 4).length < momentumDefaults.lookback_games ∧
    MomentumStrategy.process_match dfStreak momentumDefaults rowAB4 ≠ [] := by
  with_unfolding_all decide

/-- Witness for C1 (amended): the Form evaluator with a 5-game window skips
the date-4 match (3 prior games each side), and the Momentum evaluator skips
the date-2 match (1 prior game each side). -/
theorem c1_insufficient_history_amended_witness :
    FormStrategy.process_match dfStreak 5 (6/10) true
      ⟨some "A", some "B", some 4, some 2, some 0, some FTR.H, some 2, some 3, some 4⟩ = [] ∧
    MomentumStrategy.process_match dfStreak momentumDefaults
      ⟨some "A", some "B", some 2, some 2, some 0, some FTR.H, some 2, some 3, some 4⟩ = [] :=
  ⟨c1_insufficient_history_amended.1 dfStreak 5 (6/10) true "A" "B" 4 (some 2) (some 0)
      FTR.H (some 2) (some 3) (some 4) (by with_unfolding_all decide),
   c1_insufficient_history_amended.2 dfStreak momentumDefaults "A" "B" 2 (some 2) (some 0)
      FTR.H (some 2) (some 3) (some 4) (by with_unfolding_all decide)⟩

/-- C4: in the Momentum evaluator's per-match decision, with valid data and
both sides' `games_played` at least 2: if both momentum scores are at or above
the winning threshold and differ by less than 0.01, exactly one
`MOMENTUM_DRAW` record on `DRAW` is produced and no `MOMENTUM_WINNING`
record; if both clear the threshold and differ by at least 0.01, exactly one
`MOMENTUM_WINNING` record is produced, on the side with the strictly higher
score; if exactly one side clears the threshold, exactly one
`MOMENTUM_WINNING` record on that side. -/
theorem c4_momentum_mutual_exclusion
    (df : List Row) (cfg : MomentumStrategy.MomentumCfg) (home away : String)
    (md : Nat) (g1 g2 : Option Nat) (res : FTR)
    (home_odds draw_odds away_odds : Rat)
    (hho : 0 < home_odds) (hdo : 0 < draw_odds) (hao : 0 < away_odds)
    (hgh : ¬ (MomentumStrategy.calculate_team_momentum df home md cfg.lookback_games).games_played < 2)
    (hga : ¬ (MomentumStrategy.calculate_team_momentum df away md cfg.lookback_games).games_played < 2) :
    (cfg.winning_momentum_threshold
        ≤ (MomentumStrategy.calculate_team_momentum df home md cfg.lookback_games).momentum_score →
      cfg.winning_momentum_threshold
        ≤ (MomentumStrategy.calculate_team_momentum df away md cfg.lookback_games).momentum_score →
      |(MomentumStrategy.calculate_team_momentum df home md cfg.lookback_games).momentum_score
        - (MomentumStrategy.calculate_team_momentum df away md cfg.lookback_games).momentum_score| < 1/100 →
      ((MomentumStrategy.process_match df cfg
          ⟨some home, some away, some md, g1, g2, some res,
            some home_odds, some draw_odds, some away_odds⟩).filter
          (fun b => b.bet_type == "MOMENTUM_DRAW")).map (fun b => b.bet_team) = ["DRAW"] ∧
      (MomentumStrategy.process_match df cfg
          ⟨some home, some away, some md, g1, g2, some res,
            some home_odds, some draw_odds, some away_odds⟩).filter
          (fun b => b.bet_type == "MOMENTUM_WINNING") = []) ∧
    (cfg.winning_momentum_threshold
        ≤ (MomentumStrategy.calculate_team_momentum df home md cfg.lookback_games).momentum_score →
      cfg.winning_momentum_threshold
        ≤ (MomentumStrategy.calculate_team_momentum df away md cfg.lookback_games).momentum_score →
      ¬ |(MomentumStrategy.calculate_team_momentum df home md cfg.lookback_games).momentum_score
        - (MomentumStrategy.calculate_team_momentum df away md cfg.lookback_games).momentum_score| < 1/100 →
      ((MomentumStrategy.process_match df cfg
          ⟨some home, some away, some md, g1, g2, some res,
            some home_odds, some draw_odds, some away_odds⟩).filter
          (fun b => b.bet_type == "MOMENTUM_WINNING")).map (fun b => b.bet_team)
        = [if (MomentumStrategy.calculate_team_momentum df away md cfg.lookback_games).momentum_score
              < (MomentumStrategy.calculate_team_momentum df home md cfg.lookback_games).momentum_score
           then home else away]) ∧
    (cfg.winning_momentum_threshold
        ≤ (MomentumStrategy.calculate_team_momentum df home md cfg.lookback_games).momentum_score →
      ¬ cfg.winning_momentum_threshold
        ≤ (MomentumStrategy.calculate_team_momentum df away md cfg.lookback_games).momentum_score →
      ((MomentumStrategy.process_match df cfg
          ⟨some home, some away, some md, g1, g2, some res,
            some home_odds, some draw_odds, some away_odds⟩).filter
          (fun b => b.bet_type == "MOMENTUM_WINNING")).map (fun b => b.bet_team) = [home]) ∧
    (¬ cfg.winning_momentum_threshold
        ≤ (MomentumStrategy.calculate_team_momentum df home md cfg.lookback_games).momentum_score →
      cfg.winning_momentum_threshold
        ≤ (MomentumStrategy.calculate_team_momentum df away md cfg.lookback_games).momentum_score →
      ((MomentumStrategy.process_match df cfg
          ⟨some home, some away, some md, g1, g2, some res,
            some home_odds, some draw_odds, some away_odds⟩).filter
          (fun b => b.bet_type == "MOMENTUM_WINNING")).map (fun b => b.bet_team) = [away]) := by
  have hgames : ¬ ((MomentumStrategy.calculate_team_momentum df home md cfg.lookback_games).games_played < 2
      ∨ (MomentumStrategy.calculate_team_momentum df away md cfg.lookback_games).games_played < 2) :=
    not_or.mpr ⟨hgh, hga⟩
  refine ⟨?_, ?_, ?_, ?_⟩
  · intro h1 h2 h3
    simp only [MomentumStrategy.process_match]
    rw [if_neg hgames, if_pos (And.intro h1 h2), if_pos h3, if_pos hdo]
    constructor <;> · split_ifs <;> simp [mkBet]
  · intro h1 h2 h3
    simp only [MomentumStrategy.process_match]
    rw [if_neg hgames, if_pos (And.intro h1 h2), if_neg h3]
    by_cases hcmp : (MomentumStrategy.calculate_team_momentum df away md cfg.lookback_games).momentum_score
        < (MomentumStrategy.calculate_team_momentum df home md cfg.lookback_games).momentum_score
    · rw [if_pos hcmp, if_pos hcmp, if_pos hho]
      split_ifs <;> simp [mkBet]
    · rw [if_neg hcmp, if_neg hcmp, if_pos hao]
      split_ifs <;> simp [mkBet]
  · intro h1 h2
    simp only [MomentumStrategy.process_match]
    rw [if_neg hgames, if_neg (fun hb => h2 hb.2), if_pos h1, if_pos hho]
    split_ifs <;> simp [mkBet]
  · intro h1 h2
    simp only [MomentumStrategy.process_match]
    rw [if_neg hgames, if_neg (fun hb => h1 hb.1), if_neg h1, if_pos h2, if_pos hao]
    split_ifs <;> simp [mkBet]

/-- Witness for C4: before their date-5 match, `A` is on a 3-game streak
(score 0.3) and `B` on a 2-game streak (score 0.2); both clear the 0.2
threshold and differ by 0.1, and exactly one `MOMENTUM_WINNING` record is
produced, on `A`. -/
theorem c4_momentum_mutual_exclusion_witness :
    ((MomentumStrategy.process_match dfMomPair momentumDefaults rowAB5).filter
        (fun b => b.bet_type == "MOMENTUM_WINNING")).map (fun b => b.bet_team) = ["A"] := by
  have h := (c4_momentum_mutual_exclusion dfMomPair momentumDefaults "A" "B" 5
      (some 1) (some 0) FTR.H 2 3 4 (by norm_num) (by norm_num) (by norm_num)
      (by with_unfolding_all decide) (by with_unfolding_all decide)).2.1
      (by with_unfolding_all decide) (by with_unfolding_all decide)
      (by with_unfolding_all decide)
  rw [show rowAB5 = ⟨some "A", some "B", some 5, some 1, some 0, some FTR.H,
      some 2, some 3, some 4⟩ from rfl, h]
  with_unfolding_all decide

/-- C5 (amended): in the Top-Bottom evaluator's top-vs-bottom branch, when the
two sides belong to exactly one of the two sets each (the top participant is
not also a bottom team and vice versa — automatic whenever the two sets are
disjoint, e.g. N=3 in a 20-team league) and the top side's odds are positive,
exactly one bet record is produced: a `FOR` bet backing the top team, with no
`AGAINST` record.  (When the sets overlap — possible once `2N > T - 3` since
both come from the same table — a top-vs-bottom match can produce two FOR
records; see the counterexample.) -/
theorem c5_top_bottom_single_bet_amended (top_teams bottom_teams : List String)
    (home away : String) (md : Option Nat) (g1 g2 : Option Nat) (res : FTR)
    (home_odds away_odds : Rat) (dOdds : Option Rat) :
    (top_teams.contains home = true → bottom_teams.contains away = true →
      top_teams.contains away = false → bottom_teams.contains home = false →
      0 < home_odds →
      TopBottomStrategy.process_match top_teams bottom_teams
        ⟨some home, some away, md, g1, g2, some res, some home_odds, dOdds, some away_odds⟩
        = [mkBet md home away home "FOR" res (res == FTR.H) home_odds]) ∧
    (top_teams.contains away = true → bottom_teams.contains home = true →
      top_teams.contains home = false → bottom_teams.contains away = false →
      0 < away_odds →
      TopBottomStrategy.process_match top_teams bottom_teams
        ⟨some home, some away, md, g1, g2, some res, some home_odds, dOdds, some away_odds⟩
        = [mkBet md home away away "FOR" res (res == FTR.A) away_odds]) := by
  constructor
  · intro htop hbot hnt hnb hho
    have hne : home ≠ away := by
      intro he
      have h1 : top_teams.contains away = true := he ▸ htop
      rw [hnt] at h1
      exact Bool.noConfusion h1
    have hba : (home == away) = false := beq_eq_false_iff_ne.mpr hne
    have m1 : home ∈ top_teams := by simpa using htop
    have m2 : away ∈ bottom_teams := by simpa using hbot
    have m3 : away ∉ top_teams := by simpa using hnt
    have m4 : home ∉ bottom_teams := by simpa using hnb
    simp only [TopBottomStrategy.process_match]
    simp [m1, m2, m3, m4, hba, not_le.mpr hho]
  · intro hat hbh hnth hnba hao
    have hne : away ≠ home := by
      intro he
      have h1 : top_teams.contains home = true := he ▸ hat
      rw [hnth] at h1
      exact Bool.noConfusion h1
    have hab : (away == home) = false := beq_eq_false_iff_ne.mpr hne
    have m1 : away ∈ top_teams := by simpa using hat
    have m2 : home ∈ bottom_teams := by simpa using hbh
    have m3 : home ∉ top_teams := by simpa using hnth
    have m4 : away ∉ bottom_teams := by simpa using hnba
    simp only [TopBottomStrategy.process_match]
    simp [m1, m2, m3, m4, hab, hne, not_le.mpr hao]

/-- C5 counterexample: in the 8-team previous season with N = 4, the top set
is [T1, T3, T5, T7] and the bottom set [T3, T5, T7, T8] (they overlap); in the
match T1 v T3 one participant is a top team and the other a bottom team, yet
the evaluator produces two bet records (FOR both T1 and T3), not exactly one. -/
theorem c5_claim_counterexample :
    "T1" ∈ PremierLeagueAnalytics.get_top_teams prevDf8 4 ∧
    "T3" ∈ PremierLeagueAnalytics.get_bottom_teams prevDf8 4 ∧
    (TopBottomStrategy.analyze_betting_performance prevDf8 [rowT1T3] 4 true).length = 2 := by
  with_unfolding_all decide

/-- Witness for C5 (amended): with N = 2 the sets are the disjoint [T1, T3]
and [T7, T8]; the match T1 v T7 yields exactly the single FOR record on T1. -/
theorem c5_top_bottom_single_bet_amended_witness :
    TopBottomStrategy.process_match (PremierLeagueAnalytics.get_top_teams prevDf8 2)
      (PremierLeagueAnalytics.get_bottom_teams prevDf8 2)
      ⟨some "T1", some "T7", some 10, some 1, some 0, some FTR.H, some 2, some 3, some 4⟩
      = [mkBet (some 10) "T1" "T7" "T1" "FOR" FTR.H (FTR.H == FTR.H) 2] :=
  (c5_top_bottom_single_bet_amended (PremierLeagueAnalytics.get_top_teams prevDf8 2)
      (PremierLeagueAnalytics.get_bottom_teams prevDf8 2) "T1" "T7" (some 10) (some 1)
      (some 0) FTR.H 2 4 (some 3)).1
    (by with_unfolding_all decide) (by with_unfolding_all decide)
    (by with_unfolding_all decide) (by with_unfolding_all decide) (by norm_num)

/-- C10: in each waterfall checker (Form-AGAINST, Momentum-AGAINST, Form-FOR,
Momentum-FOR), once the minimum-games precondition passes, the home side is
tested first: when the step's threshold condition holds for both sides the
returned team is the home team, and the away team is returned when the home
side fails the condition and the away side meets it. -/
theorem c10_home_first (df : List Row) (home away : String) (md fg : Nat)
    (pthr fthr : Rat) :
    (¬ ((FormStrategy.calculate_team_form df home md fg).games_played < fg ∨
          (FormStrategy.calculate_team_form df away md fg).games_played < fg) →
      ((FormStrategy.calculate_team_form df home md fg).form_score ≤ pthr →
        (WaterfallBettingAdvisor.check_form_against df home away md fg pthr).bet_team
          = some home) ∧
      (¬ (FormStrategy.calculate_team_form df home md fg).form_score ≤ pthr →
        (FormStrategy.calculate_team_form df away md fg).form_score ≤ pthr →
        (WaterfallBettingAdvisor.check_form_against df home away md fg pthr).bet_team
          = some away)) ∧
    (¬ ((MomentumStrategy.calculate_team_momentum df home md 10).games_played < 10 ∨
          (MomentumStrategy.calculate_team_momentum df away md 10).games_played < 10) →
      ((MomentumStrategy.calculate_team_momentum df home md 10).momentum_score ≤ -(2/10) →
        (WaterfallBettingAdvisor.check_momentum_against df home away md).bet_team
          = some home) ∧
      (¬ (MomentumStrategy.calculate_team_momentum df home md 10).momentum_score ≤ -(2/10) →
        (MomentumStrategy.calculate_team_momentum df away md 10).momentum_score ≤ -(2/10) →
        (WaterfallBettingAdvisor.check_momentum_against df home away md).bet_team
          = some away)) ∧
    (¬ ((FormStrategy.calculate_team_form df home md fg).games_played < fg ∨
          (FormStrategy.calculate_team_form df away md fg).games_played < fg) →
      (fthr ≤ (FormStrategy.calculate_team_form df home md fg).form_score →
        (WaterfallBettingAdvisor.check_form_for df home away md fg fthr).bet_team
          = some home) ∧
      (¬ fthr ≤ (FormStrategy.calculate_team_form df home md fg).form_score →
        fthr ≤ (FormStrategy.calculate_team_form df away md fg).form_score →
        (WaterfallBettingAdvisor.check_form_for df home away md fg fthr).bet_team
          = some away)) ∧
    (¬ ((MomentumStrategy.calculate_team_momentum df home md 10).games_played < 10 ∨
          (MomentumStrategy.calculate_team_momentum df away md 10).games_played < 10) →
      ((2/10 : Rat) ≤ (MomentumStrategy.calculate_team_momentum df home md 10).momentum_score →
        (WaterfallBettingAdvisor.check_momentum_for df home away md).bet_team
          = some home) ∧
      (¬ (2/10 : Rat) ≤ (MomentumStrategy.calculate_team_momentum df home md 10).momentum_score →
        (2/10 : Rat) ≤ (MomentumStrategy.calculate_team_momentum df away md 10).momentum_score →
        (WaterfallBettingAdvisor.check_momentum_for df home away md).bet_team
          = some away)) := by
  refine ⟨fun hg => ⟨fun hh => ?_, fun hh ha => ?_⟩,
          fun hg => ⟨fun hh => ?_, fun hh ha => ?_⟩,
          fun hg => ⟨fun hh => ?_, fun hh ha => ?_⟩,
          fun hg => ⟨fun hh => ?_, fun hh ha => ?_⟩⟩
  · unfold WaterfallBettingAdvisor.check_form_against
    rw [if_neg hg, if_pos hh]
  · unfold WaterfallBettingAdvisor.check_form_against
    rw [if_neg hg, if_neg hh, if_pos ha]
  · unfold WaterfallBettingAdvisor.check_momentum_against
    rw [if_neg hg, if_pos hh]
  · unfold WaterfallBettingAdvisor.check_momentum_against
    rw [if_neg hg, if_neg hh, if_pos ha]
  · unfold WaterfallBettingAdvisor.check_form_for
    rw [if_neg hg, if_pos hh]
  · unfold WaterfallBettingAdvisor.check_form_for
    rw [if_neg hg, if_neg hh, if_pos ha]
  · unfold WaterfallBettingAdvisor.check_momentum_for
    rw [if_neg hg, if_pos hh]
  · unfold WaterfallBettingAdvisor.check_momentum_for
    rw [if_neg hg, if_neg hh, if_pos ha]

/-- Witness for C10 on `dfTwenty` at date 50: `C` and `D` both have zero form
and maximal losing momentum, `A` and `B` both have perfect form and maximal
winning momentum, and each checker names the home side. -/
theorem c10_home_first_witness :
    (WaterfallBettingAdvisor.check_form_against dfTwenty "C" "D" 50 3 (4/10)).bet_team
      = some "C" ∧
    (WaterfallBettingAdvisor.check_momentum_against dfTwenty "C" "D" 50).bet_team
      = some "C" ∧
    (WaterfallBettingAdvisor.check_form_for dfTwenty "A" "B" 50 3 (6/10)).bet_team
      = some "A" ∧
    (WaterfallBettingAdvisor.check_momentum_for dfTwenty "A" "B" 50).bet_team
      = some "A" :=
  ⟨((c10_home_first dfTwenty "C" "D" 50 3 (4/10) (6/10)).1
      (by with_unfolding_all decide)).1 (by with_unfolding_all decide),
   ((c10_home_first dfTwenty "C" "D" 50 3 (4/10) (6/10)).2.1
      (by with_unfolding_all decide)).1 (by with_unfolding_all decide),
   ((c10_home_first dfTwenty "A" "B" 50 3 (4/10) (6/10)).2.2.1
      (by with_unfolding_all decide)).1 (by with_unfolding_all decide),
   ((c10_home_first dfTwenty "A" "B" 50 3 (4/10) (6/10)).2.2.2
      (by with_unfolding_all decide)).1 (by with_unfolding_all decide)⟩

/-- C3: the waterfall advisor returns the recommendation of the
highest-priority step whose condition fires, in the fixed order Form-AGAINST
(1), Momentum-AGAINST (2), Form-FOR (3), Momentum-FOR (4), Top-Bottom (5):
whenever Form-AGAINST fires the returned recommendation is built from the
Form-AGAINST check alone — regardless of lower-priority conditions — and each
later step is reached only when all earlier checks return no team; when no
step fires the result has `bet_team = none` and the no-opportunity reason
listing the strategies checked. -/
theorem c3_waterfall_priority (df prev_df : List Row) (home away : String)
    (md fg : Nat) (fthr pthr : Rat) (tn : Nat) :
    ((WaterfallBettingAdvisor.check_form_against df home away md fg pthr).bet_team.isSome = true →
      WaterfallBettingAdvisor._apply_waterfall_logic df prev_df home away md fg fthr pthr tn
        = ⟨(WaterfallBettingAdvisor.check_form_against df home away md fg pthr).bet_team,
           some "FORM_AGAINST",
           (WaterfallBettingAdvisor.check_form_against df home away md fg pthr).confidence,
           (WaterfallBettingAdvisor.check_form_against df home away md fg pthr).reason,
           some "form_against", some 1,
           (WaterfallBettingAdvisor.check_form_against df home away md fg pthr).detailed_reason⟩) ∧
    ((WaterfallBettingAdvisor.check_form_against df home away md fg pthr).bet_team = none →
      (WaterfallBettingAdvisor.check_momentum_against df home away md).bet_team.isSome = true →
      WaterfallBettingAdvisor._apply_waterfall_logic df prev_df home away md fg fthr pthr tn
        = ⟨(WaterfallBettingAdvisor.check_momentum_against df home away md).bet_team,
           some "MOMENTUM_AGAINST",
           (WaterfallBettingAdvisor.check_momentum_against df home away md).confidence,
           (WaterfallBettingAdvisor.check_momentum_against df home away md).reason,
           some "momentum_against", some 2,
           (WaterfallBettingAdvisor.check_momentum_against df home away md).detailed_reason⟩) ∧
    ((WaterfallBettingAdvisor.check_form_against df home away md fg pthr).bet_team = none →
      (WaterfallBettingAdvisor.check_momentum_against df home away md).bet_team = none →
      (WaterfallBettingAdvisor.check_form_for df home away md fg fthr).bet_team.isSome = true →
      WaterfallBettingAdvisor._apply_waterfall_logic df prev_df home away md fg fthr pthr tn
        = ⟨(WaterfallBettingAdvisor.check_form_for df home away md fg fthr).bet_team,
           some "FORM_FOR",
           (WaterfallBettingAdvisor.check_form_for df home away md fg fthr).confidence,
           (WaterfallBettingAdvisor.check_form_for df home away md fg fthr).reason,
           some "form_for", some 3,
           (WaterfallBettingAdvisor.check_form_for df home away md fg fthr).detailed_reason⟩) ∧
    ((WaterfallBettingAdvisor.check_form_against df home away md fg pthr).bet_team = none →
      (WaterfallBettingAdvisor.check_momentum_against df home away md).bet_team = none →
      (WaterfallBettingAdvisor.check_form_for df home away md fg fthr).bet_team = none →
      (WaterfallBettingAdvisor.check_momentum_for df home away md).bet_team.isSome = true →
      WaterfallBettingAdvisor._apply_waterfall_logic df prev_df home away md fg fthr pthr tn
        = ⟨(WaterfallBettingAdvisor.check_momentum_for df home away md).bet_team,
           some "MOMENTUM_FOR",
           (WaterfallBettingAdvisor.check_momentum_for df home away md).confidence,
           (WaterfallBettingAdvisor.check_momentum_for df home away md).reason,
           some "momentum_for", some 4,
           (WaterfallBettingAdvisor.check_momentum_for df home away md).detailed_reason⟩) ∧
    ((WaterfallBettingAdvisor.check_form_against df home away md fg pthr).bet_team = none →
      (WaterfallBettingAdvisor.check_momentum_against df home away md).bet_team = none →
      (WaterfallBettingAdvisor.check_form_for df home away md fg fthr).bet_team = none →
      (WaterfallBettingAdvisor.check_momentum_for df home away md).bet_team = none →
      (WaterfallBettingAdvisor.check_top_bottom prev_df home away tn).bet_team.isSome = true →
      WaterfallBettingAdvisor._apply_waterfall_logic df prev_df home away md fg fthr pthr tn
        = ⟨(WaterfallBettingAdvisor.check_top_bottom prev_df home away tn).bet_team,
           some "TOP_BOTTOM",
           (WaterfallBettingAdvisor.check_top_bottom prev_df home away tn).confidence,
           (WaterfallBettingAdvisor.check_top_bottom prev_df home away tn).reason,
           some "top_bottom", some 5,
           (WaterfallBettingAdvisor.check_top_bottom prev_df home away tn).detailed_reason⟩) ∧
    ((WaterfallBettingAdvisor.check_form_against df home away md fg pthr).bet_team = none →
      (WaterfallBettingAdvisor.check_momentum_against df home away md).bet_team = none →
      (WaterfallBettingAdvisor.check_form_for df home away md fg fthr).bet_team = none →
      (WaterfallBettingAdvisor.check_momentum_for df home away md).bet_team = none →
      (WaterfallBettingAdvisor.check_top_bottom prev_df home away tn).bet_team = none →
      WaterfallBettingAdvisor._apply_waterfall_logic df prev_df home away md fg fthr pthr tn
        = ⟨none, none, 0, "No betting opportunities found in any strategy", none, none,
           "Checked: Form AGAINST, Momentum AGAINST, Form FOR, Momentum FOR, Top-Bottom - no opportunities"⟩) := by
  refine ⟨fun h1 => ?_, fun h1 h2 => ?_, fun h1 h2 h3 => ?_, fun h1 h2 h3 h4 => ?_,
    fun h1 h2 h3 h4 h5 => ?_, fun h1 h2 h3 h4 h5 => ?_⟩
  · unfold WaterfallBettingAdvisor._apply_waterfall_logic
    rw [if_pos h1]
  · unfold WaterfallBettingAdvisor._apply_waterfall_logic
    rw [if_neg (by simp [h1]), if_pos h2]
  · unfold WaterfallBettingAdvisor._apply_waterfall_logic
    rw [if_neg (by simp [h1]), if_neg (by simp [h2]), if_pos h3]
  · unfold WaterfallBettingAdvisor._apply_waterfall_logic
    rw [if_neg (by simp [h1]), if_neg (by simp [h2]), if_neg (by simp [h3]), if_pos h4]
  · unfold WaterfallBettingAdvisor._apply_waterfall_logic
    rw [if_neg (by simp [h1]), if_neg (by simp [h2]), if_neg (by simp [h3]),
      if_neg (by simp [h4]), if_pos h5]
  · unfold WaterfallBettingAdvisor._apply_waterfall_logic
    rw [if_neg (by simp [h1]), if_neg (by simp [h2]), if_neg (by simp [h3]),
      if_neg (by simp [h4]), if_neg (by simp [h5])]

/-- Witness for C3: against `dfTwenty` on date 50 for the fixture `C` v `A`,
the Form-AGAINST condition fires (home side `C` has zero form) while the
lower-priority Momentum-FOR condition also holds (away side `A` has maximal
winning momentum), and the advisor returns the Form-AGAINST recommendation on
`C` with priority 1. -/
theorem c3_waterfall_priority_witness :
    (WaterfallBettingAdvisor.check_momentum_for dfTwenty "C" "A" 50).bet_team = some "A" ∧
    WaterfallBettingAdvisor._apply_waterfall_logic dfTwenty [] "C" "A" 50 3 (6/10) (4/10) 3
      = ⟨(WaterfallBettingAdvisor.check_form_against dfTwenty "C" "A" 50 3 (4/10)).bet_team,
         some "FORM_AGAINST",
         (WaterfallBettingAdvisor.check_form_against dfTwenty "C" "A" 50 3 (4/10)).confidence,
         (WaterfallBettingAdvisor.check_form_against dfTwenty "C" "A" 50 3 (4/10)).reason,
         some "form_against", some 1,
         (WaterfallBettingAdvisor.check_form_against dfTwenty "C" "A" 50 3 (4/10)).detailed_reason⟩ :=
  ⟨by with_unfolding_all decide,
   (c3_waterfall_priority dfTwenty [] "C" "A" 50 3 (6/10) (4/10) 3).1
     (by with_unfolding_all decide)⟩
